import Mathlib

/-! Verification of the file_tree_rs directory-tree utility.

Shallow embedding of the two source files:
* `src/main.rs` — the primary tree builder (`walk_dir`) and renderer
  (`print_tree` with its inner `visit`), modelled in namespace `FileTree`;
* `src/ref.rs` — the options-based walker variant (`WalkerOptions`,
  `Walker::walk_dir_recursive`, `file_is_hidden`), in namespace `RefWalker`.

Filesystem interaction is embedded by giving each directory entry the
observations the Rust code makes of it: the results of the three `Path`
type checks, the `metadata()` result (the Windows `file_attributes` word,
or `none` when `metadata()` errs), the `read_link` result, and — for
recursion — the entry's own listing together with whether `read_dir`
succeeds on it. -/

namespace FileTree

/-- `struct File` from main.rs: name plus best-effort metadata
(`metadata: Option<fs::Metadata>`), the metadata reduced to the
`file_attributes` word the code inspects. -/
structure File where
  name : String
  metadata : Option Nat
deriving Repr, DecidableEq

/-- `struct Symlink` from main.rs. -/
structure Symlink where
  name : String
  target : String
  metadata : Option Nat
deriving Repr, DecidableEq

/-- `enum TreeEntry` from main.rs. `DirNode` carries the two fields of
`struct Directory` inline (name and children), since the nested struct
cannot be declared before this inductive. -/
inductive TreeEntry where
  | FileNode (f : File) : TreeEntry
  | SymlinkNode (s : Symlink) : TreeEntry
  | DirNode (name : String) (subdirectories : List TreeEntry) : TreeEntry
deriving Repr

/-- `struct Directory` from main.rs (the type `walk_dir` returns). -/
structure Directory where
  name : String
  subdirectories : List TreeEntry
deriving Repr

/-- One item yielded by `read_dir`, as main.rs observes it: either a
per-entry enumeration error (the `Err(_)` arm of the loop) or an entry
carrying the results of `path().is_file()`, `path().is_symlink()`,
`path().is_dir()`, the `metadata()` attributes (none when `metadata()`
fails), the `read_link` result (none when it fails), and the entry's own
directory listing (`subReadOk` false when `read_dir` on it would fail). -/
inductive FSItem where
  | err : FSItem
  | entry (name : String) (isFile isSymlink isDir : Bool)
      (metadata : Option Nat) (linkTarget : Option String)
      (subReadOk : Bool) (sub : List FSItem) : FSItem
deriving Repr

/-- Outcome of `walk_dir`: `Ok(Directory)`, an `anyhow` error propagated by
`?`, or a panic (`unreachable!()` / `unwrap` failure). -/
inductive WalkOut where
  | ok (d : Directory) : WalkOut
  | error : WalkOut
  | panicked : WalkOut
deriving Repr

/-- Outcome of the entry loop inside `walk_dir` (the `sub_dirs` vector, or
the propagated failure). -/
inductive ItemsOut where
  | ok (entries : List TreeEntry) : ItemsOut
  | error : ItemsOut
  | panicked : ItemsOut
deriving Repr

/-- `sub_dirs.push(node)` lifted over the loop outcome. -/
def pushNode (n : TreeEntry) : ItemsOut → ItemsOut
  | .ok es => .ok (n :: es)
  | .error => .error
  | .panicked => .panicked

/-- `const FILE_ATTRIBUTE_HIDDEN: u32 = 0x02` from main.rs. -/
def FILE_ATTRIBUTE_HIDDEN : Nat := 0x02

/-- Rust `str::starts_with`: the pattern's characters are a prefix of the
string's characters (stated over the character lists so it evaluates in
the kernel). -/
def starts_with (s pat : String) : Bool :=
  pat.data.isPrefixOf s.data

mutual

/-- `walk_dir` from main.rs: open the listing (fail if `read_dir` fails),
run the entry loop, and wrap the surviving nodes in a `Directory` named by
the path's final component. -/
def walk_dir (name : String) (readOk : Bool) (items : List FSItem) : WalkOut :=
  if readOk then
    match walkItems items with
    | .ok es => .ok ⟨name, es⟩
    | .error => .error
    | .panicked => .panicked
  else .error

/-- The `for dir_entry in dir_iter` loop of `walk_dir`, one guard arm at a
time, in source order: `Err(_)` entries are skipped; an entry is matched
against `is_file()` first, then `is_symlink()`, then `is_dir()`, with a
final `unreachable!()` arm; the file and directory arms skip names starting
with `.` and entries whose attributes have the hidden bit; the symlink arm
propagates `read_link` failure with `?`; the directory arm recurses with
`walk_dir(...)?`. -/
def walkItems : List FSItem → ItemsOut
  | [] => .ok []
  | .err :: rest => walkItems rest
  | .entry name isFile isSymlink isDir metadata linkTarget subReadOk sub :: rest =>
    if isFile then
      if starts_with name "." then walkItems rest
      else
        match metadata with
        | some attr =>
          if attr &&& FILE_ATTRIBUTE_HIDDEN != 0 then walkItems rest
          else pushNode (.FileNode ⟨name, some attr⟩) (walkItems rest)
        | none => pushNode (.FileNode ⟨name, none⟩) (walkItems rest)
    else if isSymlink then
      match linkTarget with
      | some t => pushNode (.SymlinkNode ⟨name, t, metadata⟩) (walkItems rest)
      | none => .error
    else if isDir then
      if starts_with name "." then walkItems rest
      else
        match metadata with
        | some attr =>
          if attr &&& FILE_ATTRIBUTE_HIDDEN != 0 then walkItems rest
          else
            match walk_dir name subReadOk sub with
            | .ok d => pushNode (.DirNode d.name d.subdirectories) (walkItems rest)
            | .error => .error
            | .panicked => .panicked
        | none =>
          match walk_dir name subReadOk sub with
          | .ok d => pushNode (.DirNode d.name d.subdirectories) (walkItems rest)
          | .error => .error
          | .panicked => .panicked
    else .panicked

end

/-- `const PIPE` from print_tree: a box-drawing vertical bar followed by two
non-breaking spaces. -/
def PIPE : String := "│  "

/-- `const TEE_PIPE` from print_tree. -/
def TEE_PIPE : String := "├── "

/-- `const SPACES` from print_tree: two non-breaking spaces and a space. -/
def SPACES : String := "   "

/-- `const L_PIPE` from print_tree: one corner glyph, ONE horizontal dash,
one space. -/
def L_PIPE : String := "└─ "

/-- The `for entry in dir.subdirectories.iter()` loop of `visit` inside
print_tree, over one sibling list: returns the lines printed by the loop,
and the `file_count` and `dir_count` contributions of these entries
(`dir_count` here excludes the enclosing directory's own `1`; `visit` adds
it). An entry is last exactly when `subdir_count` has reached `0`. -/
def visitGo (pre : String) : List TreeEntry → List String × Nat × Nat
  | [] => ([], 0, 0)
  | e :: rest =>
    let isLast := rest.isEmpty
    let connector := if isLast then L_PIPE else TEE_PIPE
    let cur : List String × Nat × Nat :=
      match e with
      | .FileNode f => ([pre ++ connector ++ f.name], 1, 0)
      | .SymlinkNode _ => ([], 1, 0)
      | .DirNode n subs =>
        let next_prefix := pre ++ (if isLast then SPACES else PIPE)
        let r := visitGo next_prefix subs
        ((pre ++ connector ++ n) :: r.1, r.2.1, 1 + r.2.2)
    let r2 := visitGo pre rest
    (cur.1 ++ r2.1, cur.2.1 + r2.2.1, cur.2.2 + r2.2.2)

/-- `visit` from print_tree: lines printed for `dir`'s subtree plus the
returned `(file_count, dir_count)`, with `dir_count` starting at `1` for
`dir` itself. -/
def visit (dir : Directory) (pre : String) : List String × Nat × Nat :=
  let r := visitGo pre dir.subdirectories
  (r.1, r.2.1, 1 + r.2.2)

/-- `print_tree` from main.rs, as the list of lines it prints: the root
path, the tree body, and the final counts line. -/
def print_tree (path : String) (tree : Directory) : List String :=
  let r := visit tree ""
  (path :: r.1) ++ [toString r.2.1 ++ " files, " ++ toString r.2.2 ++ " directories"]

/-- Modelled from the spec (refinement side of the count claim): the total
number of FileNode and SymlinkNode leaves anywhere in a sibling list. -/
def specFileCountList : List TreeEntry → Nat
  | [] => 0
  | .FileNode _ :: rest => 1 + specFileCountList rest
  | .SymlinkNode _ :: rest => 1 + specFileCountList rest
  | .DirNode _ subs :: rest => specFileCountList subs + specFileCountList rest

/-- Modelled from the spec: the total number of Directory nodes anywhere in
a sibling list. -/
def specDirCountList : List TreeEntry → Nat
  | [] => 0
  | .FileNode _ :: rest => specDirCountList rest
  | .SymlinkNode _ :: rest => specDirCountList rest
  | .DirNode _ subs :: rest => 1 + specDirCountList subs + specDirCountList rest

/-- Modelled from the spec: FileNode and SymlinkNode leaves of a whole tree. -/
def specFileCount (d : Directory) : Nat :=
  specFileCountList d.subdirectories

/-- Modelled from the spec: Directory nodes of a whole tree, root included. -/
def specDirCount (d : Directory) : Nat :=
  1 + specDirCountList d.subdirectories

/-- The name an entry prints on a line of its own in `visit`
(symlinks print none). -/
def printedName : TreeEntry → Option String
  | .FileNode f => some f.name
  | .DirNode n _ => some n
  | .SymlinkNode _ => none

/-- Number of lines the `visit` loop prints for a sibling list: one per
file, none per symlink, one plus the recursive count per directory. -/
def lineCountList : List TreeEntry → Nat
  | [] => 0
  | .FileNode _ :: rest => 1 + lineCountList rest
  | .SymlinkNode _ :: rest => lineCountList rest
  | .DirNode _ subs :: rest => 1 + lineCountList subs + lineCountList rest

end FileTree

namespace RefWalker

/-- `enum WalkerError` from ref.rs. -/
inductive WalkerError where
  | MaxDepthReached
  | FileNotDirectory
  | PathNotFound
deriving Repr, DecidableEq

/-- `struct WalkerOptions` from ref.rs. -/
structure WalkerOptions where
  is_recursive : Bool
  max_depth : Nat
  show_hidden_files : Bool
deriving Repr, DecidableEq

/-- `WalkerOptions::new` from ref.rs: `is_recursive: false`,
`max_depth: u8::MAX as usize`, `show_hidden_files: true`. -/
def WalkerOptions.new : WalkerOptions :=
  { is_recursive := false, max_depth := 255, show_hidden_files := true }

/-- `WalkerOptions::set_recursive`. -/
def WalkerOptions.set_recursive (o : WalkerOptions) (recursive : Bool) : WalkerOptions :=
  { o with is_recursive := recursive }

/-- `WalkerOptions::set_show_hidden_files`. -/
def WalkerOptions.set_show_hidden_files (o : WalkerOptions) (show_ : Bool) : WalkerOptions :=
  { o with show_hidden_files := show_ }

/-- One filesystem node as ref.rs observes it: the `is_dir()` check, the
`metadata()` attributes (none when `metadata()` fails), whether `read_dir`
succeeds on it, and the entries `read_dir` yields. -/
inductive RNode where
  | mk (name : String) (isDir : Bool) (metadata : Option Nat) (readOk : Bool)
      (entries : List RNode) : RNode
deriving Repr

/-- is_dir observation of a node. -/
def RNode.isDir : RNode → Bool
  | .mk _ d _ _ _ => d

/-- metadata observation of a node. -/
def RNode.metadata : RNode → Option Nat
  | .mk _ _ m _ _ => m

/-- whether read_dir succeeds on the node. -/
def RNode.readOk : RNode → Bool
  | .mk _ _ _ r _ => r

/-- the entries read_dir yields for the node. -/
def RNode.entries : RNode → List RNode
  | .mk _ _ _ _ es => es

/-- `enum VisitStatus` from ref.rs. -/
inductive VisitStatus where
  | Visited
  | Unvisited
deriving Repr, DecidableEq

/-- `struct FileEntry` from ref.rs, its `path` field replaced by the node
the path denotes. -/
inductive FileEntry where
  | mk (node : RNode) (children : Option (List FileEntry)) (visit_status : VisitStatus) :
      FileEntry
deriving Repr

/-- node of a FileEntry. -/
def FileEntry.node : FileEntry → RNode
  | .mk n _ _ => n

/-- children of a FileEntry. -/
def FileEntry.children : FileEntry → Option (List FileEntry)
  | .mk _ c _ => c

/-- visit_status of a FileEntry. -/
def FileEntry.visit_status : FileEntry → VisitStatus
  | .mk _ _ v => v

/-- `const FILE_ATTRIBUTE_HIDDEN: u32 = 0x02` from ref.rs. -/
def FILE_ATTRIBUTE_HIDDEN : Nat := 0x02

/-- `get_dir_entries` from ref.rs: a `read_dir` failure is reported on
stderr and swallowed, yielding the empty vector; per-entry failures are
likewise dropped from the returned vector. -/
def get_dir_entries (n : RNode) : List RNode :=
  if n.readOk then n.entries else []

/-- `file_is_hidden` from ref.rs: a metadata read failure returns `false`;
otherwise the hidden bit of `file_attributes` decides. -/
def file_is_hidden (file : RNode) : Bool :=
  match file.metadata with
  | some attr => attr &&& FILE_ATTRIBUTE_HIDDEN != 0
  | none => false

mutual

/-- `Walker::walk_dir_recursive` from ref.rs, acting on the entry's node
(call sites always pass an entry with no children, unvisited): mark
visited, bump depth, fail on max depth or non-directory, else list the
directory and add one child per (possibly hidden-filtered) entry, recursing
into entries that are directories and DISCARDING the recursion's result
with `let _ = ...`. Returns the updated entry and the `Result`. -/
def walk_dir_recursive (opts : WalkerOptions) (n : RNode) (depth : Nat) :
    FileEntry × Option WalkerError :=
  let depth' := depth + 1
  if depth' = opts.max_depth then
    (.mk n none .Visited, some .MaxDepthReached)
  else if !n.isDir then
    (.mk n none .Visited, some .FileNotDirectory)
  else
    let cs :=
      if opts.show_hidden_files then walkChildrenShow opts (get_dir_entries n) depth'
      else walkChildrenHide opts (get_dir_entries n) depth'
    (.mk n (if cs.isEmpty then none else some cs) .Visited, none)
termination_by sizeOf n
decreasing_by
  all_goals
    cases n with
    | mk nm d m r es =>
      cases r <;> simp [get_dir_entries, RNode.readOk, RNode.entries] <;> omega

/-- The `show_hidden_files` branch of the entry loop in
`walk_dir_recursive`: every entry becomes a child; directory entries are
walked first (their error ignored). -/
def walkChildrenShow (opts : WalkerOptions) : List RNode → Nat → List FileEntry
  | [], _ => []
  | e :: rest, depth =>
    (if e.isDir then (walk_dir_recursive opts e depth).1 else .mk e none .Unvisited)
      :: walkChildrenShow opts rest depth
termination_by es depth => sizeOf es
decreasing_by all_goals (simp; try omega)

/-- The hidden-filtering branch of the entry loop in `walk_dir_recursive`:
hidden entries are skipped, the rest become children as above. -/
def walkChildrenHide (opts : WalkerOptions) : List RNode → Nat → List FileEntry
  | [], _ => []
  | e :: rest, depth =>
    if file_is_hidden e then walkChildrenHide opts rest depth
    else
      (if e.isDir then (walk_dir_recursive opts e depth).1 else .mk e none .Unvisited)
        :: walkChildrenHide opts rest depth
termination_by es depth => sizeOf es
decreasing_by all_goals (simp; try omega)

end

/-- The entries of a node that survive the hidden filter of the
`walk_dir_recursive` loop. -/
def keptEntries (opts : WalkerOptions) (n : RNode) : List RNode :=
  if opts.show_hidden_files then get_dir_entries n
  else (get_dir_entries n).filter (fun e => !file_is_hidden e)

/-- The child `walk_dir_recursive` builds for one kept entry. -/
def childOf (opts : WalkerOptions) (depth : Nat) (e : RNode) : FileEntry :=
  if e.isDir then (walk_dir_recursive opts e depth).1 else .mk e none .Unvisited

end RefWalker

/-- The file-count component of the `visit` loop equals the number of
FileNode and SymlinkNode leaves in the sibling list. -/
theorem visitGo_fileCount (pre : String) (es : List FileTree.TreeEntry) :
    (FileTree.visitGo pre es).2.1 = FileTree.specFileCountList es := by
  induction pre, es using FileTree.visitGo.induct with
  | case1 pre => simp [FileTree.visitGo, FileTree.specFileCountList]
  | case2 pre e rest ih2 ih1 =>
    cases e <;> simp_all [FileTree.visitGo, FileTree.specFileCountList]

/-- The dir-count component of the `visit` loop equals the number of
Directory nodes in the sibling list. -/
theorem visitGo_dirCount (pre : String) (es : List FileTree.TreeEntry) :
    (FileTree.visitGo pre es).2.2 = FileTree.specDirCountList es := by
  induction pre, es using FileTree.visitGo.induct with
  | case1 pre => simp [FileTree.visitGo, FileTree.specDirCountList]
  | case2 pre e rest ih2 ih1 =>
    cases e <;> (simp_all [FileTree.visitGo, FileTree.specDirCountList]; try omega)

/-- The number of lines the `visit` loop prints does not depend on the
prefix and equals `lineCountList`. -/
theorem visitGo_lineCount (pre : String) (es : List FileTree.TreeEntry) :
    (FileTree.visitGo pre es).1.length = FileTree.lineCountList es := by
  induction pre, es using FileTree.visitGo.induct with
  | case1 pre => simp [FileTree.visitGo, FileTree.lineCountList]
  | case2 pre e rest ih2 ih1 =>
    cases e <;> (simp_all [FileTree.visitGo, FileTree.lineCountList]; try omega)

/-- C2 (confirmed): for every built tree, the renderer's `visit` returns
`file_count` equal to the total number of FileNode and SymlinkNode leaves
anywhere in the tree and `dir_count` equal to the total number of
Directory nodes anywhere in the tree including the root, at any nesting
depth, and `print_tree` prints these counts as its final line. -/
theorem visit_counts_files_and_dirs (d : FileTree.Directory) (pre path : String) :
    (FileTree.visit d pre).2.1 = FileTree.specFileCount d ∧
    (FileTree.visit d pre).2.2 = FileTree.specDirCount d ∧
    (FileTree.print_tree path d).getLast? =
      some (toString (FileTree.specFileCount d) ++ " files, " ++
        toString (FileTree.specDirCount d) ++ " directories") := by
  refine ⟨?_, ?_, ?_⟩
  · simp [FileTree.visit, FileTree.specFileCount, visitGo_fileCount]
  · simp [FileTree.visit, FileTree.specDirCount, visitGo_dirCount]
  · simp only [FileTree.print_tree, FileTree.visit, FileTree.specFileCount,
      FileTree.specDirCount, visitGo_fileCount, visitGo_dirCount]
    rw [List.getLast?_append_cons]
    rfl

/-- C4 (counterexample): the single (hence last) sibling `a` is rendered
with the two-glyph elbow `└─ ` followed by the name; the four-character
connector `└── ` claimed by the spec does not occur. -/
theorem elbow_glyph_cex :
    (FileTree.visitGo "" [.FileNode ⟨"a", none⟩]).1 = ["└─ a"] ∧
    "└── a" ∉ (FileTree.visitGo "" [.FileNode ⟨"a", none⟩]).1 := by
  refine ⟨?_, ?_⟩ <;> simp [FileTree.visitGo, FileTree.L_PIPE]

/-- C4 (amended): in every sibling list, every entry that prints a line of
its own (a file or a directory; symlinks print none) is rendered with the
elbow connector `└─ ` when it is the last sibling and with the tee
connector `├── ` otherwise. -/
theorem sibling_connector_assignment (pre : String) (es : List FileTree.TreeEntry)
    (i : Nat) (e : FileTree.TreeEntry) (n : String)
    (he : es[i]? = some e) (hn : FileTree.printedName e = some n) :
    (pre ++ (if i + 1 = es.length then FileTree.L_PIPE else FileTree.TEE_PIPE) ++ n)
      ∈ (FileTree.visitGo pre es).1 := by
  induction es generalizing pre i with
  | nil => simp at he
  | cons e' rest ih =>
    cases i with
    | zero =>
      simp only [List.getElem?_cons_zero, Option.some.injEq] at he
      subst he
      cases e' with
      | FileNode f =>
        simp only [FileTree.printedName, Option.some.injEq] at hn
        subst hn
        cases rest <;> simp [FileTree.visitGo]
      | SymlinkNode s => simp [FileTree.printedName] at hn
      | DirNode dn subs =>
        simp only [FileTree.printedName, Option.some.injEq] at hn
        subst hn
        cases rest <;> simp [FileTree.visitGo]
    | succ i =>
      simp only [List.getElem?_cons_succ] at he
      have hmem := ih pre i he
      cases e' <;>
        simp only [FileTree.visitGo, List.length_cons, Nat.succ_inj, List.mem_append,
          List.mem_cons] <;>
        right <;>
        simpa using hmem

/-- C4 (witness): the first of two file siblings gets the tee connector. -/
theorem sibling_connector_assignment_witness :
    ([.FileNode ⟨"a", none⟩, .FileNode ⟨"b", none⟩] :
        List FileTree.TreeEntry)[0]? = some (.FileNode ⟨"a", none⟩) ∧
    FileTree.printedName (.FileNode ⟨"a", none⟩) = some "a" ∧
    ("" ++ (if 0 + 1 = ([.FileNode ⟨"a", none⟩, .FileNode ⟨"b", none⟩] :
          List FileTree.TreeEntry).length then FileTree.L_PIPE else FileTree.TEE_PIPE) ++ "a")
      ∈ (FileTree.visitGo ""
          [.FileNode ⟨"a", none⟩, .FileNode ⟨"b", none⟩]).1 :=
  ⟨rfl, rfl,
    sibling_connector_assignment "" [.FileNode ⟨"a", none⟩, .FileNode ⟨"b", none⟩]
      0 (.FileNode ⟨"a", none⟩) "a" rfl rfl⟩

/-- Leaf counting is additive over concatenation of sibling lists. -/
theorem specFileCountList_append (a b : List FileTree.TreeEntry) :
    FileTree.specFileCountList (a ++ b)
      = FileTree.specFileCountList a + FileTree.specFileCountList b := by
  induction a with
  | nil => simp [FileTree.specFileCountList]
  | cons e rest ih =>
    cases e <;> (simp [FileTree.specFileCountList, ih]; try omega)

/-- Printed-line counting is additive over concatenation of sibling lists. -/
theorem lineCountList_append (a b : List FileTree.TreeEntry) :
    FileTree.lineCountList (a ++ b)
      = FileTree.lineCountList a + FileTree.lineCountList b := by
  induction a with
  | nil => simp [FileTree.lineCountList]
  | cons e rest ih =>
    cases e <;> (simp [FileTree.lineCountList, ih]; try omega)

/-- The lines the `visit` loop prints do not depend on the data stored in a
symlink sibling. -/
theorem visitGo_symlink_lines (pre : String) (es₁ es₂ : List FileTree.TreeEntry)
    (s s' : FileTree.Symlink) :
    (FileTree.visitGo pre (es₁ ++ .SymlinkNode s :: es₂)).1
      = (FileTree.visitGo pre (es₁ ++ .SymlinkNode s' :: es₂)).1 := by
  induction es₁ generalizing pre with
  | nil => simp [FileTree.visitGo]
  | cons e rest ih =>
    have h1 : (rest ++ FileTree.TreeEntry.SymlinkNode s :: es₂).isEmpty = false := by
      cases rest <;> rfl
    have h2 : (rest ++ FileTree.TreeEntry.SymlinkNode s' :: es₂).isEmpty = false := by
      cases rest <;> rfl
    cases e <;> simp [FileTree.visitGo, h1, h2, ih]

/-- C6 (confirmed): every SymlinkNode sibling adds exactly `1` to the
file count, adds no printed line, and its stored data (name, target,
metadata) never influences the printed lines. -/
theorem symlink_counted_once_never_printed (pre : String)
    (es₁ es₂ : List FileTree.TreeEntry) (s s' : FileTree.Symlink) :
    (FileTree.visitGo pre (es₁ ++ .SymlinkNode s :: es₂)).2.1
        = (FileTree.visitGo pre (es₁ ++ es₂)).2.1 + 1 ∧
    (FileTree.visitGo pre (es₁ ++ .SymlinkNode s :: es₂)).1.length
        = (FileTree.visitGo pre (es₁ ++ es₂)).1.length ∧
    (FileTree.visitGo pre (es₁ ++ .SymlinkNode s :: es₂)).1
        = (FileTree.visitGo pre (es₁ ++ .SymlinkNode s' :: es₂)).1 := by
  refine ⟨?_, ?_, visitGo_symlink_lines pre es₁ es₂ s s'⟩
  · simp [visitGo_fileCount, specFileCountList_append, FileTree.specFileCountList]
    omega
  · simp [visitGo_lineCount, lineCountList_append, FileTree.lineCountList]

/-- C1 (counterexample): for an entry whose `is_dir()` check is true but
which is a symlink (a symlink pointing at a directory: `is_file()` false,
`is_symlink()` true, `is_dir()` true), the build classifies it as a
SymlinkNode, not as a Directory as the dir-check-first claim requires. -/
theorem symlink_to_dir_classified_as_symlink_cex :
    FileTree.walk_dir "r" true [.entry "s" false true true none (some "t") true []]
      = .ok ⟨"r", [.SymlinkNode ⟨"s", "t", none⟩]⟩ := by
  simp [FileTree.walk_dir, FileTree.walkItems, FileTree.pushNode]

/-- C1 (amended): entry classification checks `is_file()` first, then
`is_symlink()`, then `is_dir()`, so whenever several type checks are true
the earlier check wins: a file check that is true yields a FileNode
regardless of the symlink and dir checks, and a symlink check that is true
yields a SymlinkNode regardless of the dir check. -/
theorem classification_checks_file_then_symlink_then_dir
    (name t : String) (isSymlink isDir subReadOk : Bool)
    (linkTarget : Option String) (metadata : Option Nat)
    (sub rest : List FileTree.FSItem) (d : FileTree.Directory) :
    (FileTree.starts_with name "." = false →
      FileTree.walkItems (.entry name true isSymlink isDir none linkTarget subReadOk sub :: rest)
        = FileTree.pushNode (.FileNode ⟨name, none⟩) (FileTree.walkItems rest)) ∧
    (FileTree.walkItems (.entry name false true isDir metadata (some t) subReadOk sub :: rest)
        = FileTree.pushNode (.SymlinkNode ⟨name, t, metadata⟩) (FileTree.walkItems rest)) ∧
    (FileTree.starts_with name "." = false →
      FileTree.walk_dir name subReadOk sub = .ok d →
      FileTree.walkItems (.entry name false false true none linkTarget subReadOk sub :: rest)
        = FileTree.pushNode (.DirNode d.name d.subdirectories) (FileTree.walkItems rest)) := by
  refine ⟨fun hdot => ?_, ?_, fun hdot hwalk => ?_⟩
  · rw [FileTree.walkItems.eq_def]
    simp [hdot]
  · rw [FileTree.walkItems.eq_def]
    simp
  · rw [FileTree.walkItems.eq_def]
    simp [hdot, hwalk]

/-- C1 (witness): the three precedence cases at concrete entries. -/
theorem classification_checks_file_then_symlink_then_dir_witness :
    FileTree.starts_with "a" "." = false ∧
    FileTree.walk_dir "d2" true [] = .ok ⟨"d2", []⟩ ∧
    (FileTree.walkItems [.entry "a" true true true none none true []]
        = FileTree.pushNode (.FileNode ⟨"a", none⟩) (FileTree.walkItems [])) ∧
    (FileTree.walkItems [.entry "a" false true true none (some "t") true []]
        = FileTree.pushNode (.SymlinkNode ⟨"a", "t", none⟩) (FileTree.walkItems [])) ∧
    (FileTree.walkItems [.entry "d2" false false true none none true []]
        = FileTree.pushNode (.DirNode "d2" []) (FileTree.walkItems [])) := by
  refine ⟨by decide, by simp [FileTree.walk_dir, FileTree.walkItems], ?_, ?_, ?_⟩
  · exact (classification_checks_file_then_symlink_then_dir "a" "t" true true true
      none none [] [] ⟨"d2", []⟩).1 (by decide)
  · exact (classification_checks_file_then_symlink_then_dir "a" "t" true true true
      none none [] [] ⟨"d2", []⟩).2.1
  · exact (classification_checks_file_then_symlink_then_dir "d2" "t" true true true
      none none [] [] ⟨"d2", []⟩).2.2 (by decide)
        (by simp [FileTree.walk_dir, FileTree.walkItems])

/-- C3 (counterexample): a symbolic link named `.hid` — a dot name — is NOT
filtered out: it appears in the built tree and contributes `1` to the file
count. -/
theorem dot_symlink_not_filtered_cex :
    FileTree.walk_dir "r" true [.entry ".hid" false true false none (some "t") true []]
      = .ok ⟨"r", [.SymlinkNode ⟨".hid", "t", none⟩]⟩ ∧
    (FileTree.visit ⟨"r", [.SymlinkNode ⟨".hid", "t", none⟩]⟩ "").2.1 = 1 := by
  constructor
  · simp [FileTree.walk_dir, FileTree.walkItems, FileTree.pushNode]
  · simp [FileTree.visit, FileTree.visitGo]

/-- C3 (amended): under default filtering a dot-named entry is excluded
when it is classified as a regular file or as a directory, but NOT when it
is classified as a symbolic link: a dot-named symlink is kept in the tree
(and hence counts as a file). -/
theorem dotfile_filter_files_and_dirs_only
    (name t : String) (isSymlink isDir subReadOk : Bool)
    (metadata : Option Nat) (linkTarget : Option String)
    (sub rest : List FileTree.FSItem)
    (hdot : FileTree.starts_with name "." = true) :
    (FileTree.walkItems (.entry name true isSymlink isDir metadata linkTarget subReadOk sub :: rest)
        = FileTree.walkItems rest) ∧
    (FileTree.walkItems (.entry name false false true metadata linkTarget subReadOk sub :: rest)
        = FileTree.walkItems rest) ∧
    (FileTree.walkItems (.entry name false true isDir metadata (some t) subReadOk sub :: rest)
        = FileTree.pushNode (.SymlinkNode ⟨name, t, metadata⟩) (FileTree.walkItems rest)) := by
  refine ⟨?_, ?_, ?_⟩ <;> (rw [FileTree.walkItems.eq_def]; simp [hdot])

/-- C3 (witness): the amended filtering behaviour at the dot name `.hid`. -/
theorem dotfile_filter_files_and_dirs_only_witness :
    FileTree.starts_with ".hid" "." = true ∧
    (FileTree.walkItems [.entry ".hid" true false false none none true []]
        = FileTree.walkItems []) ∧
    (FileTree.walkItems [.entry ".hid" false false true none none true []]
        = FileTree.walkItems []) ∧
    (FileTree.walkItems [.entry ".hid" false true false none (some "t") true []]
        = FileTree.pushNode (.SymlinkNode ⟨".hid", "t", none⟩) (FileTree.walkItems [])) := by
  refine ⟨by decide, ?_, ?_, ?_⟩
  · exact (dotfile_filter_files_and_dirs_only ".hid" "t" false false true none none
      [] [] (by decide)).1
  · exact (dotfile_filter_files_and_dirs_only ".hid" "t" false false true none none
      [] [] (by decide)).2.1
  · exact (dotfile_filter_files_and_dirs_only ".hid" "t" false false true none none
      [] [] (by decide)).2.2

/-- C5 (confirmed): a symlink whose target cannot be resolved makes the
whole entry loop fail; a kept subdirectory whose recursive build fails
makes the loop fail; and a failing loop makes the enclosing `walk_dir`
(hence the root build) fail, so no partial tree is returned. -/
theorem subtree_or_symlink_failure_aborts
    (rootName name : String) (isDir subReadOk : Bool)
    (metadata : Option Nat) (linkTarget : Option String)
    (sub rest items : List FileTree.FSItem) :
    (FileTree.walkItems (.entry name false true isDir metadata none subReadOk sub :: rest)
        = .error) ∧
    (FileTree.starts_with name "." = false →
      FileTree.walk_dir name subReadOk sub = .error →
      FileTree.walkItems (.entry name false false true none linkTarget subReadOk sub :: rest)
        = .error) ∧
    (FileTree.walkItems items = .error →
      FileTree.walk_dir rootName true items = .error) := by
  refine ⟨?_, fun hdot hsub => ?_, fun hitems => ?_⟩
  · rw [FileTree.walkItems.eq_def]
    simp
  · rw [FileTree.walkItems.eq_def]
    simp [hdot, hsub]
  · rw [FileTree.walk_dir.eq_def]
    simp [hitems]

/-- C5 (witness): a broken symlink one level down aborts the root build. -/
theorem subtree_or_symlink_failure_aborts_witness :
    FileTree.starts_with "d" "." = false ∧
    FileTree.walk_dir "d" false [] = .error ∧
    (FileTree.walkItems [.entry "s" false true false none none true []] = .error) ∧
    (FileTree.walkItems [.entry "d" false false true none none false []] = .error) ∧
    FileTree.walk_dir "r" true [.entry "s" false true false none none true []] = .error := by
  refine ⟨by decide, by rw [FileTree.walk_dir.eq_def]; simp, ?_, ?_, ?_⟩
  · exact (subtree_or_symlink_failure_aborts "r" "s" false true none none [] [] []).1
  · exact (subtree_or_symlink_failure_aborts "r" "d" false false none none [] [] []).2.1
      (by decide) (by rw [FileTree.walk_dir.eq_def]; simp)
  · exact (subtree_or_symlink_failure_aborts "r" "s" false true none none [] []
      [.entry "s" false true false none none true []]).2.2
      ((subtree_or_symlink_failure_aborts "r" "s" false true none none [] [] []).1)

/-- C7 (code evaluation at the failing input): an entry for which all
three type checks are false — e.g. one removed between enumeration and
classification, or a special file that is neither regular file, symlink,
nor directory — drives `walk_dir` into the `unreachable!()` arm: the
process panics instead of erroring or skipping. -/
theorem unclassifiable_entry_panics :
    FileTree.walk_dir "r" true [.entry "gone" false false false none none true []]
      = .panicked := by
  simp [FileTree.walk_dir, FileTree.walkItems]

/-- C10 (confirmed): in both implementations an entry whose metadata cannot
be read is treated as not hidden. In ref.rs, `file_is_hidden` returns
`false` on a metadata error; consequently the hidden filter keeps the
entry. In main.rs, a file entry with unreadable metadata and a non-dot
name is retained as a FileNode. -/
theorem metadata_error_entry_not_hidden
    (n : RefWalker.RNode) (hm : n.metadata = none)
    (opts : RefWalker.WalkerOptions) (p : RefWalker.RNode)
    (name : String) (isSymlink isDir subReadOk : Bool)
    (linkTarget : Option String) (sub rest : List FileTree.FSItem)
    (hdot : FileTree.starts_with name "." = false) :
    RefWalker.file_is_hidden n = false ∧
    (n ∈ RefWalker.get_dir_entries p → n ∈ RefWalker.keptEntries opts p) ∧
    (FileTree.walkItems
        (.entry name true isSymlink isDir none linkTarget subReadOk sub :: rest)
      = FileTree.pushNode (.FileNode ⟨name, none⟩) (FileTree.walkItems rest)) := by
  have hhid : RefWalker.file_is_hidden n = false := by
    simp [RefWalker.file_is_hidden, hm]
  refine ⟨hhid, fun hmem => ?_, ?_⟩
  · unfold RefWalker.keptEntries
    split
    · exact hmem
    · exact List.mem_filter.2 ⟨hmem, by simp [hhid]⟩
  · rw [FileTree.walkItems.eq_def]
    simp [hdot]

/-- C10 (witness): an entry with unreadable metadata, at concrete inputs. -/
theorem metadata_error_entry_not_hidden_witness :
    (RefWalker.RNode.mk "a" false none true []).metadata = none ∧
    FileTree.starts_with "a" "." = false ∧
    RefWalker.file_is_hidden (.mk "a" false none true []) = false ∧
    ((RefWalker.RNode.mk "a" false none true [])
        ∈ RefWalker.get_dir_entries (.mk "p" true none true [.mk "a" false none true []]) →
      (RefWalker.RNode.mk "a" false none true [])
        ∈ RefWalker.keptEntries ⟨false, 255, false⟩ (.mk "p" true none true [.mk "a" false none true []])) ∧
    (FileTree.walkItems [.entry "a" true false false none none true []]
      = FileTree.pushNode (.FileNode ⟨"a", none⟩) (FileTree.walkItems [])) := by
  refine ⟨rfl, by decide, ?_, ?_, ?_⟩
  · exact (metadata_error_entry_not_hidden (.mk "a" false none true []) rfl
      ⟨false, 255, false⟩ (.mk "p" true none true [.mk "a" false none true []])
      "a" false false true none [] [] (by decide)).1
  · exact (metadata_error_entry_not_hidden (.mk "a" false none true []) rfl
      ⟨false, 255, false⟩ (.mk "p" true none true [.mk "a" false none true []])
      "a" false false true none [] [] (by decide)).2.1
  · exact (metadata_error_entry_not_hidden (.mk "a" false none true []) rfl
      ⟨false, 255, false⟩ (.mk "p" true none true [.mk "a" false none true []])
      "a" false false true none [] [] (by decide)).2.2

/-- C8 (counterexample): the options constructed by `WalkerOptions::new`
have `is_recursive = false` — recursion is NOT enabled by default. -/
theorem default_options_not_recursive_cex :
    RefWalker.WalkerOptions.new.is_recursive = false := rfl

/-- C8 (amended): the default configuration has recursion DISABLED, hidden
files shown, and a maximum depth of 255. -/
theorem walker_options_new_defaults :
    RefWalker.WalkerOptions.new.is_recursive = false ∧
    RefWalker.WalkerOptions.new.show_hidden_files = true ∧
    RefWalker.WalkerOptions.new.max_depth = 255 :=
  ⟨rfl, rfl, rfl⟩

/-- The show-hidden branch of the `walk_dir_recursive` loop builds exactly
one child per entry. -/
theorem walkChildrenShow_eq_map (opts : RefWalker.WalkerOptions)
    (es : List RefWalker.RNode) (depth : Nat) :
    RefWalker.walkChildrenShow opts es depth
      = es.map (RefWalker.childOf opts depth) := by
  induction es with
  | nil => simp [RefWalker.walkChildrenShow]
  | cons e rest ih => simp [RefWalker.walkChildrenShow, RefWalker.childOf, ih]

/-- The hidden-filtering branch of the `walk_dir_recursive` loop builds
exactly one child per non-hidden entry. -/
theorem walkChildrenHide_eq_map (opts : RefWalker.WalkerOptions)
    (es : List RefWalker.RNode) (depth : Nat) :
    RefWalker.walkChildrenHide opts es depth
      = (es.filter (fun e => !RefWalker.file_is_hidden e)).map
          (RefWalker.childOf opts depth) := by
  induction es with
  | nil => simp [RefWalker.walkChildrenHide]
  | cons e rest ih =>
    by_cases hh : RefWalker.file_is_hidden e
    · simp [RefWalker.walkChildrenHide, hh, ih]
    · simp [RefWalker.walkChildrenHide, RefWalker.childOf, hh, ih]

/-- When `walk_dir_recursive` fails (max depth, or not a directory), the
entry it returns has no child list. -/
theorem walk_fail_children_none (opts : RefWalker.WalkerOptions)
    (n : RefWalker.RNode) (depth : Nat)
    (h : (RefWalker.walk_dir_recursive opts n depth).2 ≠ none) :
    (RefWalker.walk_dir_recursive opts n depth).1.children = none := by
  rw [RefWalker.walk_dir_recursive.eq_def] at h ⊢
  by_cases h1 : depth + 1 = opts.max_depth
  · simp [h1, RefWalker.FileEntry.children]
  · by_cases h2 : n.isDir = true
    · simp [h1, h2] at h
    · simp only [Bool.not_eq_true] at h2
      simp [h1, h2, RefWalker.FileEntry.children]

/-- C9 (confirmed): in the options-variant recursive walk, when the parent
is a directory and below the depth limit, its walk succeeds and builds one
child per kept entry, and any child whose own recursive walk failed is
still present, carrying an absent (`none`) child list. -/
theorem failed_child_recursion_still_added
    (opts : RefWalker.WalkerOptions) (n : RefWalker.RNode) (depth : Nat)
    (h1 : depth + 1 ≠ opts.max_depth) (h2 : n.isDir = true) :
    (RefWalker.walk_dir_recursive opts n depth).2 = none ∧
    ((RefWalker.walk_dir_recursive opts n depth).1.children.getD []
        = (RefWalker.keptEntries opts n).map (RefWalker.childOf opts (depth + 1))) ∧
    ∀ e : RefWalker.RNode,
      (RefWalker.walk_dir_recursive opts e (depth + 1)).2 ≠ none →
      (RefWalker.childOf opts (depth + 1) e).children = none := by
  have hgetD : ∀ cs : List RefWalker.FileEntry,
      (if cs.isEmpty then (none : Option (List RefWalker.FileEntry)) else some cs).getD []
        = cs := by
    intro cs
    cases cs <;> rfl
  refine ⟨?_, ?_, fun e he => ?_⟩
  · rw [RefWalker.walk_dir_recursive.eq_def]
    simp [h1, h2]
  · have hcs : (if opts.show_hidden_files then
          RefWalker.walkChildrenShow opts (RefWalker.get_dir_entries n) (depth + 1)
        else RefWalker.walkChildrenHide opts (RefWalker.get_dir_entries n) (depth + 1))
        = (RefWalker.keptEntries opts n).map (RefWalker.childOf opts (depth + 1)) := by
      by_cases hs : opts.show_hidden_files
      · simp [hs, walkChildrenShow_eq_map, RefWalker.keptEntries]
      · simp [hs, walkChildrenHide_eq_map, RefWalker.keptEntries]
    rw [RefWalker.walk_dir_recursive.eq_def]
    simp only [if_neg h1, h2, Bool.not_true, Bool.false_eq_true, if_false, hcs]
    simp [RefWalker.FileEntry.children, hgetD]
  · by_cases hd : e.isDir = true
    · simpa [RefWalker.childOf, hd] using walk_fail_children_none opts e (depth + 1) he
    · simp only [Bool.not_eq_true] at hd
      simp [RefWalker.childOf, hd, RefWalker.FileEntry.children]

/-- C9 (witness): with max depth 2, the child `c` of `r` fails its
recursive walk at depth 2, yet `r`'s walk succeeds and `c` is present with
an absent child list. -/
theorem failed_child_recursion_still_added_witness :
    (RefWalker.walk_dir_recursive ⟨false, 2, true⟩ (.mk "r" true none true [.mk "c" true none true []]) 0).2 = none ∧
    ((RefWalker.walk_dir_recursive ⟨false, 2, true⟩ (.mk "r" true none true [.mk "c" true none true []]) 0).1.children.getD []
        = (RefWalker.keptEntries ⟨false, 2, true⟩ (.mk "r" true none true [.mk "c" true none true []])).map
            (RefWalker.childOf ⟨false, 2, true⟩ (0 + 1))) ∧
    ((RefWalker.walk_dir_recursive ⟨false, 2, true⟩ (.mk "c" true none true []) (0 + 1)).2 ≠ none →
      (RefWalker.childOf ⟨false, 2, true⟩ (0 + 1) (.mk "c" true none true [])).children = none) :=
  ⟨(failed_child_recursion_still_added ⟨false, 2, true⟩
      (.mk "r" true none true [.mk "c" true none true []]) 0 (by decide) rfl).1,
   (failed_child_recursion_still_added ⟨false, 2, true⟩
      (.mk "r" true none true [.mk "c" true none true []]) 0 (by decide) rfl).2.1,
   (failed_child_recursion_still_added ⟨false, 2, true⟩
      (.mk "r" true none true [.mk "c" true none true []]) 0 (by decide) rfl).2.2
      (.mk "c" true none true [])⟩
